import Mathlib

/-
Verification of the zotify podcast-download pipeline (zotify/podcast.py)
against its natural-language specification.

The Python module is shallowly embedded: every definition below is a direct
translation of a function or a delimited region of `podcast.py` (line numbers
given in each doc comment).  External collaborators (the network layer, the
filesystem, the ffprobe binary, the tag writer) are modelled as explicit
inputs gathered in the `World` structure, so that `download_episode` becomes
a pure function from its inputs to the pair (observable network/process
events, result).  A Python exception that the source does not catch is an
`Except.error` / `some err` value; a caught-and-reported failure is an
ordinary `Outcome`.
-/

/-- Python exceptions that the embedded code can raise.  Each constructor
corresponds to a concrete exception class observable in `podcast.py`. -/
inductive PyErr where
  /-- ZeroDivisionError, from `downloaded / total_size` (line 179). -/
  | zeroDivisionError
  /-- NameError, from evaluating an unbound name. -/
  | nameError (n : String)
  /-- KeyError, from indexing a dict with a missing key. -/
  | keyError (k : String)
  /-- IndexError, from indexing past the end of a list (`items[-1]` on an empty list,
  `split("=")[1]` on output without an equals sign). -/
  | indexError
  /-- requests.HTTPError / RuntimeError raised by `download_podcast_directly`
  for a non-200 status (lines 72–75). -/
  | httpError (status : Nat)
  /-- ffmpy.FFRuntimeError, raised when ffprobe runs but exits non-zero. -/
  | ffRuntimeError
deriving DecidableEq

/-- One read from the content stream: the list of byte values returned by
`stream.input_stream.stream().read(chunk_size)` (line 173).  The empty list
is Python's `b''`. -/
abbrev Chunk := List Nat

/-- Result of the chunked transfer loop (lines 171–181): the bytes written to
the temporary file in order, the final value of `downloaded`, and the
exception that escaped the loop, if any. -/
structure TransferResult where
  written : List Nat
  downloaded : Nat
  err : Option PyErr
deriving DecidableEq

/-- Combined effect of the loop iterations that run after the stream is
exhausted: every further `read` returns `b''`, which writes nothing and adds
nothing to `downloaded`, so the loop spins incrementing `b` until `b = 5` —
unless real-time pacing is enabled with `total_size = 0`, in which case the
very next iteration raises ZeroDivisionError at line 179. -/
def drainResult (pacing : Bool) (totalSize : Nat) (written : List Nat)
    (downloaded b : Nat) : TransferResult :=
  if b < 5 ∧ pacing = true ∧ totalSize = 0 then
    ⟨written, downloaded, some PyErr.zeroDivisionError⟩
  else
    ⟨written, downloaded, none⟩

/-- Embedding of the chunked download loop of `download_episode`
(podcast.py lines 171–181):

    b = 0
    while b < 5:
        data = stream.input_stream.stream().read(chunk_size)
        pbar.update(file.write(data))
        downloaded += len(data)
        b += 1 if data == b'' else 0
        if real_time: delta_want = (downloaded / total_size) * (duration/1000); maybe sleep

`remaining` is the sequence of reads the stream will deliver; once it is
exhausted every further read returns `b''` (see `drainResult`).  Sleeping
affects only wall-clock time, which the embedding does not model; the one
data-visible effect of the pacing branch is the unguarded division by
`total_size`, which raises ZeroDivisionError when `total_size = 0`.  The
counter `b` accumulates: it is incremented on every empty read and never
reset by a non-empty one. -/
def transferLoop (pacing : Bool) (totalSize : Nat) :
    List Chunk → List Nat → Nat → Nat → TransferResult
  | [], written, downloaded, b => drainResult pacing totalSize written downloaded b
  | c :: rest, written, downloaded, b =>
    if b < 5 then
      if pacing = true ∧ totalSize = 0 then
        ⟨written ++ c, downloaded + c.length, some PyErr.zeroDivisionError⟩
      else
        transferLoop pacing totalSize rest (written ++ c) (downloaded + c.length)
          (b + if c = [] then 1 else 0)
    else
      ⟨written, downloaded, none⟩

/-- Reference loop written from the specification's words, for comparison
with `transferLoop`: the spec says the transfer stops after five
CONSECUTIVE empty reads, "any intervening non-empty read resets the
empty-read count".  Identical to `transferLoop` except that a non-empty
read resets the counter to zero. -/
def transferLoopSpec (pacing : Bool) (totalSize : Nat) :
    List Chunk → List Nat → Nat → Nat → TransferResult
  | [], written, downloaded, b => drainResult pacing totalSize written downloaded b
  | c :: rest, written, downloaded, b =>
    if b < 5 then
      if pacing = true ∧ totalSize = 0 then
        ⟨written ++ c, downloaded + c.length, some PyErr.zeroDivisionError⟩
      else
        transferLoopSpec pacing totalSize rest (written ++ c) (downloaded + c.length)
          (if c = [] then b + 1 else 0)
    else
      ⟨written, downloaded, none⟩

/-- Reference rule for the amended C4 claim: the reads the loop performs are
the longest prefix of the stream in which fewer than five CUMULATIVE empty
reads have occurred before each read; the counter starts at `b` and is never
reset. -/
def readsTaken : Nat → List Chunk → List Chunk
  | b, c :: rest =>
    if b < 5 then c :: readsTaken (b + if c = [] then 1 else 0) rest else []
  | _, [] => []

/-- Python's `str.split(sep)` for a one-character separator: split on every
occurrence, keeping empty pieces; `acc` holds the current piece reversed. -/
def splitOnCharAux (sep : Char) (acc : List Char) : List Char → List (List Char)
  | [] => [acc.reverse]
  | c :: rest =>
    if c == sep then acc.reverse :: splitOnCharAux sep [] rest
    else splitOnCharAux sep (c :: acc) rest

/-- Python's `str.strip()`: drop whitespace from both ends. -/
def stripChars (cs : List Char) : List Char :=
  ((cs.dropWhile Char.isWhitespace).reverse.dropWhile Char.isWhitespace).reverse

/-- An entry of the episode response's `images` list.  A `none` field models
the corresponding dict key being absent (indexing it raises KeyError). -/
structure Image where
  width : Option Int
  url : Option String

/-- The parsed JSON body returned for `EPISODE_URL/<id>`, as consumed by
`parse_episode_metadata` (podcast.py lines 20–40).  Each `Option` field
models presence of the dict key; `showName` stands for
`episode_resp["show"]["name"]` (a missing `show` or missing inner `name`
both raise KeyError).  `hasErrorKey` models `ERROR in resp` (line 48). -/
structure EpisodeResp where
  hasErrorKey : Bool
  epId : Option String
  epName : Option String
  showName : Option String
  durationMs : Option Nat
  releaseDate : Option String
  description : Option String
  htmlDescription : Option String
  images : Option (List Image)

/-- The structured dictionary built by `parse_episode_metadata`. -/
structure EpisodeMetadata where
  epId : String
  epName : String
  showName : String
  durationMs : Nat
  releaseDate : String
  year : String
  description : String
  imageUrl : String
  album : String
  artists : List String
deriving DecidableEq

/-- Python dict indexing: `d[k]` returns the value or raises KeyError. -/
def getKey {α : Type} (o : Option α) (k : String) : Except PyErr α :=
  match o with
  | none => Except.error (PyErr.keyError k)
  | some v => Except.ok v

/-- Embedding of `max(episode_resp[IMAGES], key=lambda img: img[WIDTH],
default=None)` (line 34): `none` for an empty list, otherwise the
first-encountered image of maximal declared width; evaluating the key of an
image without a `width` entry raises KeyError. -/
def maxByWidth (imgs : List Image) : Except PyErr (Option Image) :=
  match imgs with
  | [] => Except.ok none
  | first :: rest => do
    let w0 ← getKey first.width "width"
    let best ← rest.foldlM
      (fun acc img => do
        let w ← getKey img.width "width"
        if w > acc.2 then pure (img, w) else pure acc)
      (first, w0)
    pure (some best.1)

/-- Embedding of `parse_episode_metadata` (podcast.py lines 20–40).  Any
missing required key raises KeyError; `year` is the substring of the release
date before the first dash; the description falls back to
`html_description` and then to the empty string; the image URL is that of
the widest image, or the empty string when the image list is empty. -/
def parse_episode_metadata (r : EpisodeResp) : Except PyErr EpisodeMetadata := do
  let i ← getKey r.epId "id"
  let n ← getKey r.epName "name"
  let s ← getKey r.showName "show.name"
  let dur ← getKey r.durationMs "duration_ms"
  let rd ← getKey r.releaseDate "release_date"
  let yr := String.mk ((splitOnCharAux '-' [] rd.toList).headD [])
  let desc := r.description.getD (r.htmlDescription.getD "")
  let imgs ← getKey r.images "images"
  let largest ← maxByWidth imgs
  let iurl ← match largest with
    | some img => getKey img.url "url"
    | none => pure ""
  pure ⟨i, n, s, dur, rd, yr, desc, iurl, s, [s]⟩

/-- Embedding of `get_episode_metadata` (podcast.py lines 43–56).  The input
is the parsed response of the one metadata request, `none` standing for a
falsy response.  The result type `Except PyErr (Option EpisodeMetadata)`
records whether an exception escapes: the source wraps the parse in
`try/except Exception`, returning `None` on any parsing error, so no error
value is ever produced (proved in C9). -/
def get_episode_metadata (resp : Option EpisodeResp) :
    Except PyErr (Option EpisodeMetadata) :=
  match resp with
  | none => Except.ok none
  | some r =>
    if r.hasErrorKey then Except.ok none
    else
      match parse_episode_metadata r with
      | Except.ok m => Except.ok (some m)
      | Except.error _ => Except.ok none

/-- Character-list test: does `needle` occur at the head of `hay`? -/
def startsWithChars : List Char → List Char → Bool
  | [], _ => true
  | _ :: _, [] => false
  | a :: as, b :: bs => a == b && startsWithChars as bs

/-- Character-list substring test: does `needle` occur anywhere in `hay`?
Embeds Python's `needle in hay` on strings. -/
def containsSubChars (needle : List Char) : List Char → Bool
  | [] => startsWithChars needle []
  | c :: rest => startsWithChars needle (c :: rest) || containsSubChars needle rest

/-- Embedding of `"anon-podcast.scdn.co" in direct_download_url`
(podcast.py line 135). -/
def anonHostIn (url : String) : Bool :=
  containsSubChars "anon-podcast.scdn.co".toList url.toList

/-- The partner-API descriptor, as consumed at lines 132–135.  `audioItems`
is the URL list at `resp["data"]["episode"]["audio"]["items"]`; `none`
models any missing key on that path (KeyError).  `hasAudioPreviewUrl`
models `"audio_preview_url" in resp` (a top-level key test). -/
structure PartnerResp where
  audioItems : Option (List String)
  hasAudioPreviewUrl : Bool

/-- The opened content-stream session: its declared size
(`stream.input_stream.size`) and the sequence of reads it will deliver. -/
structure StreamHandle where
  size : Nat
  chunks : List Chunk

/-- The spec's SourcePlan: the tagged choice between the two delivery
mechanisms resolved at lines 132–142. -/
inductive SourcePlan where
  | directHttp (url : String)
  | encryptedStream (totalSize : Nat) (chunks : List Chunk)
deriving DecidableEq

/-- Result of source selection: a plan, or the reported
failure-to-open-the-stream path (lines 139–142), which the source announces
and turns into a skip. -/
inductive SelectResult where
  | plan (p : SourcePlan)
  | sourceUnavailable
deriving DecidableEq

/-- Embedding of the SourceSelector logic (podcast.py lines 132–142): read
the LAST entry of the audio item list as the candidate direct URL
(`items[-1]`, IndexError on an empty list); if it points at the anonymous
delivery host, or the descriptor lacks the `audio_preview_url` marker, open
the content stream (`sourceUnavailable` when the stream cannot be opened);
otherwise use the direct URL as-is. -/
def selectSource (resp : PartnerResp) (stream : Option StreamHandle) :
    Except PyErr SelectResult :=
  match resp.audioItems with
  | none => Except.error (PyErr.keyError "data.episode.audio.items")
  | some items =>
    match items.getLast? with
    | none => Except.error PyErr.indexError
    | some url =>
      if anonHostIn url || !resp.hasAudioPreviewUrl then
        match stream with
        | none => Except.ok SelectResult.sourceUnavailable
        | some st =>
          Except.ok (SelectResult.plan (SourcePlan.encryptedStream st.size st.chunks))
      else
        Except.ok (SelectResult.plan (SourcePlan.directHttp url))

/-- Outcome of running ffprobe on the finished temporary file:
the binary is missing (FFExecutableNotFoundError), the binary runs but
exits non-zero (FFRuntimeError), or it produces `stdout`. -/
inductive ProbeResult where
  | binaryMissing
  | runtimeError
  | stdout (s : String)

/-- Embedding of the codec extraction at line 202:
`stdout.decode().strip().split("=")[1].split("\r")[0].split("\n")[0]`.
Returns `none` when the output has no equals sign (the `[1]` raises
IndexError). -/
def parseCodec (out : String) : Option String :=
  match (splitOnCharAux '=' [] (stripChars out.toList))[1]? with
  | none => none
  | some s =>
    some (String.mk ((splitOnCharAux '\n' []
      ((splitOnCharAux '\r' [] s).headD [])).headD []))

/-- Embedding of the CodecFinalizer region (podcast.py lines 194–221).
Returns the extension the temporary file is renamed to and whether the
FFMPEG-NOT-FOUND warning was emitted, or the exception that escapes: the
`try` block catches ONLY `ffmpy.FFExecutableNotFoundError` (missing
binary → rename to `.mp3` plus warning); a probe that runs and fails, or
unparseable probe output, raises. -/
def finalizeStep (extMap : String → Option String) (probe : ProbeResult) :
    Except PyErr (String × Bool) :=
  match probe with
  | ProbeResult.binaryMissing => Except.ok ("mp3", true)
  | ProbeResult.runtimeError => Except.error PyErr.ffRuntimeError
  | ProbeResult.stdout s =>
    match parseCodec s with
    | none => Except.error PyErr.indexError
    | some codec => Except.ok ((extMap codec).getD codec, false)

/-- The configuration values `download_episode` reads, plus the EXT_MAP
constant.  EXT_MAP lives in `zotify/const.py`, outside the embedded module,
so its content is kept abstract: `extensions` is the iteration order of
`set(EXT_MAP.values())` (line 146) and `extMap` the codec-to-extension
lookup (lines 204–207).  `regexFilter` is `CONFIG.get_regex_episode()`
composed with `.search`: `none` when no filter is configured, otherwise the
predicate "the pattern matches the (sanitized) episode name". -/
structure Config where
  regexFilter : Option (String → Bool)
  skipExisting : Bool
  realTime : Bool
  extensions : List String
  extMap : String → Option String

/-- Everything the outside world feeds one `download_episode` call: the
metadata response, the partner descriptor, the content stream (if it can be
opened), the sizes of files already on disk at the episode base path by
extension, the HTTP status the direct-download URL would answer, the
ffprobe outcome, and whether tag writing succeeds. -/
structure World where
  episodeResp : Option EpisodeResp
  partner : PartnerResp
  stream : Option StreamHandle
  fileSize : String → Option Nat
  directStatus : Nat
  probe : ProbeResult
  tagOk : Bool

/-- Externally observable actions of one `download_episode` call, in
program order. -/
inductive Event where
  | metadataRequest
  | partnerRequest
  | streamOpen
  | chunkTransfer
  | directDownload
  | probeRun
  | tagWrite
deriving DecidableEq

/-- The reported (non-exceptional) results of one `download_episode` call. -/
inductive Outcome where
  /-- Lines 109–113: metadata could not be fetched or parsed; reported skip. -/
  | failedMetadata
  /-- Lines 119–125: the configured regex matched the episode name. -/
  | skippedRegex
  /-- Lines 139–142: the content stream could not be opened; reported skip. -/
  | sourceUnavailable
  /-- Lines 151–156: a sufficiently large file already exists. -/
  | skippedExists
  /-- Lines 191–236: download, finalization and tagging ran; the flag
  records whether tagging succeeded (a tagging failure is only reported). -/
  | completed (tagged : Bool)
deriving DecidableEq

/-- Embedding of the size test at line 151:
`st_size >= (total_size - 1024)`.  Python subtraction is over ℤ, so the
comparison is one-sided: any file at least `total - 1024` bytes passes,
however much larger it is. -/
def sizeOk (fileSize totalSize : Nat) : Bool :=
  (totalSize : Int) - 1024 ≤ (fileSize : Int)

/-- Embedding of the existing-file scan (podcast.py lines 144–156): some
extension in `extensions` has a file on disk whose size passes `sizeOk`,
with skip-existing enabled.  (The source sets a flag and breaks; as a
boolean result that is exactly `List.any`.) -/
def episodeExistsOnFilesystem (skipExisting : Bool) (totalSize : Nat)
    (extensions : List String) (fileSize : String → Option Nat) : Bool :=
  extensions.any fun ext =>
    match fileSize ext with
    | none => false
    | some sz => sizeOk sz totalSize && skipExisting

/-- Embedding of the regex filter test (lines 119–121): no filter
configured means no skip. -/
def regexSkips (cfg : Config) (episodeName : String) : Bool :=
  match cfg.regexFilter with
  | none => false
  | some f => f episodeName

/-- Embedding of finalization plus tagging (podcast.py lines 194–236):
run `finalizeStep`; an escaping exception aborts the call; otherwise
tagging is attempted and any tagging exception is caught and reported
(lines 231–234), so the call completes either way. -/
def finalizeAndTag (cfg : Config) (w : World) (evs : List Event) :
    List Event × Except PyErr Outcome :=
  match finalizeStep cfg.extMap w.probe with
  | Except.error e => (evs ++ [Event.probeRun], Except.error e)
  | Except.ok _ =>
    (evs ++ [Event.probeRun, Event.tagWrite], Except.ok (Outcome.completed w.tagOk))

/-- Embedding of `download_episode` from the partner request onward
(podcast.py lines 127–236), after metadata succeeded and the regex filter
did not match.  Mirrors the source's order of effects: partner request,
then — on the encrypted branch — stream open, existence check, chunked
transfer; on the direct branch the bulk download; then finalization and
tagging.  Uncaught Python exceptions surface as `Except.error`. -/
def afterFilter (cfg : Config) (w : World) : List Event × Except PyErr Outcome :=
  match w.partner.audioItems with
  | none =>
    ([Event.metadataRequest, Event.partnerRequest],
     Except.error (PyErr.keyError "data.episode.audio.items"))
  | some items =>
    match items.getLast? with
    | none => ([Event.metadataRequest, Event.partnerRequest], Except.error PyErr.indexError)
    | some url =>
      if anonHostIn url || !w.partner.hasAudioPreviewUrl then
        match w.stream with
        | none =>
          ([Event.metadataRequest, Event.partnerRequest, Event.streamOpen],
           Except.ok Outcome.sourceUnavailable)
        | some st =>
          if episodeExistsOnFilesystem cfg.skipExisting st.size cfg.extensions w.fileSize then
            ([Event.metadataRequest, Event.partnerRequest, Event.streamOpen],
             Except.ok Outcome.skippedExists)
          else
            match (transferLoop cfg.realTime st.size st.chunks [] 0 0).err with
            | some e =>
              ([Event.metadataRequest, Event.partnerRequest, Event.streamOpen,
                Event.chunkTransfer], Except.error e)
            | none =>
              finalizeAndTag cfg w
                [Event.metadataRequest, Event.partnerRequest, Event.streamOpen,
                 Event.chunkTransfer]
      else
        if w.directStatus = 200 then
          finalizeAndTag cfg w
            [Event.metadataRequest, Event.partnerRequest, Event.directDownload]
        else
          ([Event.metadataRequest, Event.partnerRequest, Event.directDownload],
           Except.error (PyErr.httpError w.directStatus))

/-- Embedding of `download_episode` (podcast.py lines 106–236).  Returns
the events the call performs together with its result: a reported
`Outcome`, or the Python exception that escapes the function. -/
def download_episode (cfg : Config) (w : World) : List Event × Except PyErr Outcome :=
  match get_episode_metadata w.episodeResp with
  | Except.error e => ([Event.metadataRequest], Except.error e)
  | Except.ok none => ([Event.metadataRequest], Except.ok Outcome.failedMetadata)
  | Except.ok (some md) =>
    if regexSkips cfg md.epName then
      ([Event.metadataRequest], Except.ok Outcome.skippedRegex)
    else
      afterFilter cfg w

/-- Embedding of `download_show` (podcast.py lines 91–103) applied to the
fully materialized episode-id list.  On success it would return the ids
passed to `download_episode`, in order.  The first statement of the loop
body (line 100) evaluates the name `episode_id`, which is bound nowhere in
`download_show` — its loop variable is `episode`, and no global of that
name exists in the module — so CPython raises NameError on the first
iteration, before `download_episode` is ever called. -/
def download_show (episodeIds : List String) : Except PyErr (List String) :=
  match episodeIds with
  | [] => Except.ok []
  | _ :: _ => Except.error (PyErr.nameError "episode_id")

/-- A well-formed episode response: every key present, parse succeeds. -/
def mdRespOk : EpisodeResp :=
  ⟨false, some "2MGz4EGNiPMF3pFvuhWXbZ", some "Sample Episode", some "Sample Show",
   some 60000, some "2023-05-01", some "a description", none, some []⟩

/-- A baseline configuration: no regex filter, skip-existing on, pacing off,
two known extensions, an empty codec table. -/
def cfgBase : Config :=
  ⟨none, true, false, ["mp3", "ogg"], fun _ => none⟩

/-- A world whose partner descriptor carries a genuine direct URL (preview
marker present, non-anonymous host), but whose direct download answers 404. -/
def wDirect404 : World :=
  ⟨some mdRespOk, ⟨some ["https://cdn.example.com/full.mp3"], true⟩, none,
   fun _ => none, 404, ProbeResult.binaryMissing, true⟩

/-- A world whose metadata request yields nothing usable. -/
def wMetaFail : World :=
  ⟨none, ⟨some ["https://cdn.example.com/full.mp3"], true⟩, none,
   fun _ => none, 200, ProbeResult.binaryMissing, true⟩

/-- A world on the encrypted-stream branch (anonymous host URL) whose
destination directory already holds a 2500-byte file against a declared
stream size of 3000 bytes — within the source's tolerance. -/
def wExisting : World :=
  ⟨some mdRespOk, ⟨some ["https://anon-podcast.scdn.co/a.mp3"], true⟩,
   some ⟨3000, [[1], [2]]⟩, fun _ => some 2500, 200, ProbeResult.binaryMissing, true⟩

/-- A world that downloads over the direct branch successfully but whose
ffprobe binary is present and exits non-zero. -/
def wProbeFails : World :=
  ⟨some mdRespOk, ⟨some ["https://cdn.example.com/full.mp3"], true⟩, none,
   fun _ => none, 200, ProbeResult.runtimeError, true⟩

/-- An episode response whose required `id` key is missing: parsing raises
KeyError inside the `try` block. -/
def mdRespNoId : EpisodeResp :=
  ⟨false, none, some "Sample Episode", some "Sample Show",
   some 60000, some "2023-05-01", some "a description", none, some []⟩

/-- The stream of reads used against claim C4: empty reads alternate with
non-empty ones, so no five CONSECUTIVE empty reads ever occur, yet the
cumulative count reaches five at the ninth read. -/
def chunksAlternating : List Chunk :=
  [[], [7], [], [8], [], [9], [], [10], [], [11]]

/-- The metadata value `parse_episode_metadata` produces for `mdRespOk`. -/
def mdParsed : EpisodeMetadata :=
  ⟨"2MGz4EGNiPMF3pFvuhWXbZ", "Sample Episode", "Sample Show", 60000, "2023-05-01",
   "2023", "a description", "", "Sample Show", ["Sample Show"]⟩

/-- A world on the encrypted-stream branch whose content stream cannot be
opened (`get_content_stream` returns None). -/
def wStreamFail : World :=
  ⟨some mdRespOk, ⟨some ["https://anon-podcast.scdn.co/a.mp3"], true⟩, none,
   fun _ => none, 200, ProbeResult.binaryMissing, true⟩

/-- When the loop cannot raise (pacing off, or a non-zero declared size), it
returns the concatenation of the reads it performs appended to the bytes
already written, with `downloaded` advanced by their total length, and no
error. -/
theorem transferLoop_eq_reads (pacing : Bool) (totalSize : Nat)
    (hp : pacing = false ∨ totalSize ≠ 0) :
    ∀ chunks b written downloaded,
      transferLoop pacing totalSize chunks written downloaded b =
        ⟨written ++ (readsTaken b chunks).flatten,
         downloaded + (readsTaken b chunks).flatten.length, none⟩ := by
  have hnot : ¬(pacing = true ∧ totalSize = 0) := by
    rcases hp with h | h
    · rintro ⟨h1, -⟩; rw [h] at h1; exact Bool.false_ne_true h1
    · rintro ⟨-, h2⟩; exact h h2
  intro chunks
  induction chunks with
  | nil =>
    intro b written downloaded
    simp only [transferLoop, readsTaken, drainResult, List.flatten_nil,
      List.append_nil, List.length_nil, Nat.add_zero]
    rw [if_neg]
    rintro ⟨-, h1, h2⟩
    exact hnot ⟨h1, h2⟩
  | cons c rest ih =>
    intro b written downloaded
    by_cases hb : b < 5
    · simp only [transferLoop, readsTaken, if_pos hb, if_neg hnot, ih,
        List.flatten_cons, List.length_append, List.append_assoc,
        TransferResult.mk.injEq, true_and, and_true]
      omega
    · simp [transferLoop, readsTaken, hb]

/-- Claim C2 (code bug, failing input): for a show with at least one
episode, `download_show` raises NameError on the unbound name `episode_id`
(podcast.py line 100) on the first loop iteration, before `download_episode`
is invoked for any listed episode — contradicting the claimed
once-per-episode, in-order invocation, which is plainly the code's intent
(the loop variable is `episode`; line 100 merely mistypes its name). -/
theorem C2_show_loop_name_error :
    download_show ["2MGz4EGNiPMF3pFvuhWXbZ"] =
      Except.error (PyErr.nameError "episode_id") := rfl

/-- Claim C4 (counterexample): on a stream alternating empty and non-empty
reads, no five CONSECUTIVE empty reads ever occur, yet `transferLoop`
terminates at the ninth read — after the fifth CUMULATIVE empty read —
leaving the final non-empty chunk `[11]` unread, whereas the loop the claim
describes (`transferLoopSpec`, whose counter is reset by every non-empty
read) writes all five data chunks. -/
theorem C4_counterexample :
    transferLoop false 100 chunksAlternating [] 0 0 = ⟨[7, 8, 9, 10], 4, none⟩ ∧
    transferLoopSpec false 100 chunksAlternating [] 0 0 = ⟨[7, 8, 9, 10, 11], 5, none⟩ :=
  ⟨rfl, rfl⟩

/-- Claim C4 (amended): the chunked read loop stops exactly after five
CUMULATIVE empty reads — the counter is incremented by every empty read and
never reset by a non-empty one — so the bytes written are the concatenation
of the reads performed while fewer than five empty reads have been seen
(`readsTaken`), and `downloaded` is their total length.  Stated away from
the zero-size pacing exception, which claim C10 covers. -/
theorem C4_cumulative_empties (pacing : Bool) (totalSize : Nat) (chunks : List Chunk)
    (hp : pacing = false ∨ totalSize ≠ 0) :
    transferLoop pacing totalSize chunks [] 0 0 =
      ⟨(readsTaken 0 chunks).flatten, (readsTaken 0 chunks).flatten.length, none⟩ := by
  simpa using transferLoop_eq_reads pacing totalSize hp chunks 0 [] 0

/-- Witness for C4: the amended theorem evaluated on a concrete stream. -/
theorem C4_cumulative_empties_witness :
    transferLoop false 3 [[9], []] [] 0 0 = ⟨[9], 1, none⟩ :=
  (C4_cumulative_empties false 3 [[9], []] (Or.inl rfl)).trans rfl

/-- Claim C8 (counterexample): with a declared total size of zero, the
pacing computation divides by zero, so the paced transfer writes only the
first chunk before raising ZeroDivisionError while the unpaced transfer
writes both chunks — the byte sequences differ, refuting the claim that
output is identical whether pacing is enabled or disabled. -/
theorem C8_counterexample :
    (transferLoop true 0 [[1], [2]] [] 0 0).written = [1] ∧
    (transferLoop true 0 [[1], [2]] [] 0 0).err = some PyErr.zeroDivisionError ∧
    (transferLoop false 0 [[1], [2]] [] 0 0).written = [1, 2] ∧
    (transferLoop false 0 [[1], [2]] [] 0 0).err = none :=
  ⟨rfl, rfl, rfl, rfl⟩

/-- Claim C8 (amended): provided the declared total size is non-zero, the
paced and unpaced transfers are data-identical — same bytes written in the
same order, same cumulative count, no error — since pacing then only
inserts delays. -/
theorem C8_pacing_data_invariant (totalSize : Nat) (chunks : List Chunk)
    (h : totalSize ≠ 0) :
    transferLoop true totalSize chunks [] 0 0 =
      transferLoop false totalSize chunks [] 0 0 := by
  rw [transferLoop_eq_reads true totalSize (Or.inr h) chunks 0 [] 0,
    transferLoop_eq_reads false totalSize (Or.inl rfl) chunks 0 [] 0]

/-- Witness for C8: the amended theorem evaluated at a non-zero size. -/
theorem C8_pacing_data_invariant_witness :
    transferLoop true 7 [[1], [2]] [] 0 0 = transferLoop false 7 [[1], [2]] [] 0 0 :=
  C8_pacing_data_invariant 7 [[1], [2]] (by decide)

/-- Claim C10 (confirmed): with real-time pacing enabled, the per-chunk
pacing computation divides `downloaded` by the declared total size with no
zero guard (podcast.py line 179): for a zero declared size EVERY stream
raises ZeroDivisionError on the first iteration instead of completing,
while for any non-zero declared size the loop never raises. -/
theorem C10_zero_size_raises (chunks : List Chunk) :
    (transferLoop true 0 chunks [] 0 0).err = some PyErr.zeroDivisionError ∧
    (∀ totalSize, totalSize ≠ 0 →
      (transferLoop true totalSize chunks [] 0 0).err = none) := by
  constructor
  · cases chunks <;> rfl
  · intro totalSize h
    rw [transferLoop_eq_reads true totalSize (Or.inr h) chunks 0 [] 0]

/-- Witness for C10: both conjuncts evaluated on a concrete stream. -/
theorem C10_zero_size_raises_witness :
    (transferLoop true 0 [[3]] [] 0 0).err = some PyErr.zeroDivisionError ∧
    (transferLoop true 5 [[3]] [] 0 0).err = none :=
  ⟨(C10_zero_size_raises [[3]]).1, (C10_zero_size_raises [[3]]).2 5 (by decide)⟩

/-- Claim C5 (counterexample): a file 10000 bytes LARGER than the declared
total size is reported as existing (the scan's condition is the one-sided
`st_size >= total_size - 1024`), although its size is not within 1024 bytes
of the declared size — refuting the claimed two-sided characterisation. -/
theorem C5_counterexample :
    episodeExistsOnFilesystem true 10000 ["mp3"] (fun _ => some 20000) = true ∧
    ¬(((20000 : Int) - (10000 : Int)).natAbs ≤ 1024) :=
  ⟨rfl, by decide⟩

/-- Claim C5 (amended): the scan reports Satisfied exactly when
skip-existing is enabled and some known extension has a file of size at
least the declared total minus 1024 bytes (the tolerance is one-sided:
files smaller by more than 1024 bytes are rejected, larger files of any
size are accepted); in particular a file 2000 bytes smaller than the
declared size is reported NotSatisfied. -/
theorem C5_satisfied_iff (skip : Bool) (totalSize : Nat) (exts : List String)
    (fs : String → Option Nat) :
    (episodeExistsOnFilesystem skip totalSize exts fs = true ↔
      skip = true ∧ ∃ ext ∈ exts, ∃ sz, fs ext = some sz ∧
        (totalSize : Int) - 1024 ≤ (sz : Int)) ∧
    (∀ sz : Nat, (sz : Int) = (totalSize : Int) - 2000 → (∀ ext, fs ext = some sz) →
      episodeExistsOnFilesystem skip totalSize exts fs = false) := by
  constructor
  · unfold episodeExistsOnFilesystem
    rw [List.any_eq_true]
    constructor
    · rintro ⟨ext, hmem, hp⟩
      match hfe : fs ext with
      | none => rw [hfe] at hp; cases hp
      | some sz =>
        rw [hfe] at hp
        rw [Bool.and_eq_true] at hp
        refine ⟨hp.2, ext, hmem, sz, hfe, ?_⟩
        have := hp.1
        unfold sizeOk at this
        exact of_decide_eq_true this
    · rintro ⟨hskip, ext, hmem, sz, hfe, hsz⟩
      refine ⟨ext, hmem, ?_⟩
      rw [hfe, Bool.and_eq_true]
      exact ⟨decide_eq_true hsz, hskip⟩
  · intro sz hsz hall
    unfold episodeExistsOnFilesystem
    rw [List.any_eq_false]
    intro ext hmem
    rw [hall ext]
    have hno : sizeOk sz totalSize = false := by
      unfold sizeOk
      rw [decide_eq_false_iff_not]
      omega
    simp [hno]

/-- Witness for C5: both conjuncts at concrete inputs — a 4500-byte file
against a declared 5000 bytes is Satisfied, and a uniform 3000-byte file
against a declared 5000 bytes (2000 bytes smaller) is NotSatisfied. -/
theorem C5_satisfied_iff_witness :
    episodeExistsOnFilesystem true 5000 ["mp3", "ogg"] (fun _ => some 4500) = true ∧
    episodeExistsOnFilesystem true 5000 ["mp3", "ogg"] (fun _ => some 3000) = false :=
  ⟨(C5_satisfied_iff true 5000 ["mp3", "ogg"] (fun _ => some 4500)).1.mpr
     ⟨rfl, "mp3", by decide, 4500, rfl, by decide⟩,
   (C5_satisfied_iff true 5000 ["mp3", "ogg"] (fun _ => some 3000)).2 3000
     (by decide) (fun _ => rfl)⟩

/-- Claim C6 (confirmed): source selection takes the LAST entry of the
descriptor's audio item list as the candidate direct URL and chooses the
encrypted-stream variant exactly when that URL contains the anonymous
delivery host or the descriptor lacks the `audio_preview_url` marker —
falling to `sourceUnavailable` when the content stream cannot be opened —
and otherwise chooses DirectHttp with that URL. -/
theorem C6_source_selection (resp : PartnerResp) (stream : Option StreamHandle)
    (items : List String) (url : String)
    (hitems : resp.audioItems = some items) (hlast : items.getLast? = some url) :
    ((anonHostIn url || !resp.hasAudioPreviewUrl) = true →
      (stream = none →
        selectSource resp stream = Except.ok SelectResult.sourceUnavailable) ∧
      (∀ st, stream = some st →
        selectSource resp stream =
          Except.ok (SelectResult.plan (SourcePlan.encryptedStream st.size st.chunks)))) ∧
    ((anonHostIn url || !resp.hasAudioPreviewUrl) = false →
      selectSource resp stream =
        Except.ok (SelectResult.plan (SourcePlan.directHttp url))) := by
  constructor
  · intro hcond
    constructor
    · intro hs
      simp only [selectSource, hitems, hlast, hcond, if_true, hs]
    · intro st hs
      simp only [selectSource, hitems, hlast, hcond, if_true, hs]
  · intro hcond
    simp only [selectSource, hitems, hlast, hcond, Bool.false_eq_true, if_false]

/-- Witness for C6: concrete descriptors exercising all three branches —
an anonymous-host URL with no stream yields `sourceUnavailable`, the same
descriptor with an open stream yields the encrypted plan, and a genuine
direct URL with the preview marker yields DirectHttp. -/
theorem C6_source_selection_witness :
    selectSource ⟨some ["u", "https://anon-podcast.scdn.co/p"], true⟩ none =
      Except.ok SelectResult.sourceUnavailable ∧
    selectSource ⟨some ["u", "https://anon-podcast.scdn.co/p"], true⟩
        (some ⟨3000, [[1]]⟩) =
      Except.ok (SelectResult.plan (SourcePlan.encryptedStream 3000 [[1]])) ∧
    selectSource ⟨some ["u", "https://cdn.example.com/full.mp3"], true⟩ none =
      Except.ok (SelectResult.plan (SourcePlan.directHttp "https://cdn.example.com/full.mp3")) :=
  ⟨((C6_source_selection ⟨some ["u", "https://anon-podcast.scdn.co/p"], true⟩ none
      ["u", "https://anon-podcast.scdn.co/p"] "https://anon-podcast.scdn.co/p"
      rfl rfl).1 rfl).1 rfl,
   ((C6_source_selection ⟨some ["u", "https://anon-podcast.scdn.co/p"], true⟩
      (some ⟨3000, [[1]]⟩)
      ["u", "https://anon-podcast.scdn.co/p"] "https://anon-podcast.scdn.co/p"
      rfl rfl).1 rfl).2 ⟨3000, [[1]]⟩ rfl,
   (C6_source_selection ⟨some ["u", "https://cdn.example.com/full.mp3"], true⟩ none
      ["u", "https://cdn.example.com/full.mp3"] "https://cdn.example.com/full.mp3"
      rfl rfl).2 rfl⟩

/-- Claim C9 (confirmed): `get_episode_metadata` never lets an exception
escape; it returns None (failure) exactly when the response is absent,
carries the API error marker, or parsing raises, and returns the parsed
metadata on success. -/
theorem C9_metadata_totality (resp : Option EpisodeResp) :
    (∀ e, get_episode_metadata resp ≠ Except.error e) ∧
    (get_episode_metadata resp = Except.ok none ↔
      resp = none ∨ ∃ r, resp = some r ∧
        (r.hasErrorKey = true ∨ ∃ e, parse_episode_metadata r = Except.error e)) ∧
    (∀ r m, resp = some r → r.hasErrorKey = false →
      parse_episode_metadata r = Except.ok m →
      get_episode_metadata resp = Except.ok (some m)) := by
  refine ⟨?_, ?_, ?_⟩
  · intro e
    match resp with
    | none => simp [get_episode_metadata]
    | some r =>
      simp only [get_episode_metadata]
      split
      · simp
      · match parse_episode_metadata r with
        | Except.ok m => simp
        | Except.error e2 => simp
  · match resp with
    | none => simp [get_episode_metadata]
    | some r =>
      simp only [get_episode_metadata, Option.some.injEq, reduceCtorEq, false_or]
      by_cases he : r.hasErrorKey
      · simp only [he, if_true]
        constructor
        · intro _
          exact ⟨r, rfl, Or.inl he⟩
        · intro _
          trivial
      · simp only [he, if_false, Bool.false_eq_true]
        match hpr : parse_episode_metadata r with
        | Except.ok m =>
          constructor
          · intro h
            cases h
          · rintro ⟨r2, hr2, hbad⟩
            cases hr2
            rcases hbad with h1 | ⟨e, h2⟩
            · exact absurd h1 he
            · rw [hpr] at h2; cases h2
        | Except.error e =>
          constructor
          · intro _
            exact ⟨r, rfl, Or.inr ⟨e, hpr⟩⟩
          · intro _
            trivial
  · intro r m hr he hp
    subst hr
    simp only [get_episode_metadata, he, Bool.false_eq_true, if_false, hp]

/-- Witness for C9: a response missing its `id` key parses to a KeyError,
which `get_episode_metadata` converts to None rather than propagating. -/
theorem C9_metadata_totality_witness :
    get_episode_metadata (some mdRespNoId) = Except.ok none :=
  (C9_metadata_totality (some mdRespNoId)).2.1.mpr
    (Or.inr ⟨mdRespNoId, rfl, Or.inr ⟨PyErr.keyError "id", rfl⟩⟩)

/-- Claim C1 (counterexample): in a world whose partner descriptor offers a
genuine direct URL but whose direct download answers 404,
`download_podcast_directly` raises (podcast.py lines 72–75) and nothing in
`download_episode` catches it — a per-episode transfer error propagates out
of `download_episode`, refuting the claim that every per-episode error is
converted to a reported skip. -/
theorem C1_counterexample :
    (download_episode cfgBase wDirect404).2 = Except.error (PyErr.httpError 404) := rfl

/-- Claim C1 (amended): metadata failures (absent or error-marked response,
parsing exceptions) and a failure to open the content stream ARE caught at
the `download_episode` boundary and converted to reported outcomes, so they
cannot abort `download_show`; but transfer errors on the direct-download
path — and likewise partner-descriptor shape errors, the pacing
division-by-zero, and prober failures other than a missing binary —
propagate out of `download_episode` (see the counterexample). -/
theorem C1_errors_contained (cfg : Config) (w : World) :
    (get_episode_metadata w.episodeResp = Except.ok none →
      download_episode cfg w =
        ([Event.metadataRequest], Except.ok Outcome.failedMetadata)) ∧
    (∀ md items url, get_episode_metadata w.episodeResp = Except.ok (some md) →
      regexSkips cfg md.epName = false →
      w.partner.audioItems = some items → items.getLast? = some url →
      (anonHostIn url || !w.partner.hasAudioPreviewUrl) = true →
      w.stream = none →
      download_episode cfg w =
        ([Event.metadataRequest, Event.partnerRequest, Event.streamOpen],
         Except.ok Outcome.sourceUnavailable)) := by
  constructor
  · intro hmd
    simp only [download_episode, hmd]
  · intro md items url hmd hreg hitems hlast hcond hstream
    simp only [download_episode, hmd, hreg, Bool.false_eq_true, if_false,
      afterFilter, hitems, hlast, hcond, if_true, hstream]

/-- Witness for C1: both contained failure classes at concrete worlds — a
failed metadata fetch and a failed stream open both end in a reported
outcome, not an exception. -/
theorem C1_errors_contained_witness :
    download_episode cfgBase wMetaFail =
      ([Event.metadataRequest], Except.ok Outcome.failedMetadata) ∧
    download_episode cfgBase wStreamFail =
      ([Event.metadataRequest, Event.partnerRequest, Event.streamOpen],
       Except.ok Outcome.sourceUnavailable) :=
  ⟨(C1_errors_contained cfgBase wMetaFail).1 rfl,
   (C1_errors_contained cfgBase wStreamFail).2 mdParsed
     ["https://anon-podcast.scdn.co/a.mp3"] "https://anon-podcast.scdn.co/a.mp3"
     rfl rfl rfl rfl rfl rfl⟩

/-- Claim C3 (counterexample): in a world where a prior file within the
size tolerance exists and skip-existing is enabled, `download_episode` does
reach the skipped-exists outcome — but only AFTER issuing the
partner-descriptor request and opening the content-stream session, because
the existence check (lines 144–156) needs `stream.input_stream.size` and
therefore runs after `get_content_stream` (line 137).  This refutes "no
partner-descriptor request and no content-stream session is opened", and
with it the at-most-once source resolution across two runs. -/
theorem C3_counterexample :
    (download_episode cfgBase wExisting).2 = Except.ok Outcome.skippedExists ∧
    Event.partnerRequest ∈ (download_episode cfgBase wExisting).1 ∧
    Event.streamOpen ∈ (download_episode cfgBase wExisting).1 :=
  ⟨rfl, by decide, by decide⟩

/-- Claim C3 (amended): for an episode on the encrypted-stream branch with
skip-existing enabled and a prior file within the tolerance, the pipeline
reaches the skipped outcome without transferring any bytes (no chunk
transfer, no direct download) — but the partner-descriptor request and the
content-stream open precede the existence check, so EVERY run, including a
second run over the same episode, performs network source resolution once. -/
theorem C3_skip_after_resolution (cfg : Config) (w : World)
    (md : EpisodeMetadata) (items : List String) (url : String) (st : StreamHandle)
    (hmd : get_episode_metadata w.episodeResp = Except.ok (some md))
    (hreg : regexSkips cfg md.epName = false)
    (hitems : w.partner.audioItems = some items)
    (hlast : items.getLast? = some url)
    (hcond : (anonHostIn url || !w.partner.hasAudioPreviewUrl) = true)
    (hstream : w.stream = some st)
    (hex : episodeExistsOnFilesystem cfg.skipExisting st.size cfg.extensions
      w.fileSize = true) :
    download_episode cfg w =
      ([Event.metadataRequest, Event.partnerRequest, Event.streamOpen],
       Except.ok Outcome.skippedExists) := by
  simp only [download_episode, hmd, hreg, Bool.false_eq_true, if_false,
    afterFilter, hitems, hlast, hcond, if_true, hstream, hex]

/-- Witness for C3: the amended theorem at the concrete world `wExisting`
(declared size 3000, existing 2500-byte file, anonymous-host URL). -/
theorem C3_skip_after_resolution_witness :
    download_episode cfgBase wExisting =
      ([Event.metadataRequest, Event.partnerRequest, Event.streamOpen],
       Except.ok Outcome.skippedExists) :=
  C3_skip_after_resolution cfgBase wExisting mdParsed
    ["https://anon-podcast.scdn.co/a.mp3"] "https://anon-podcast.scdn.co/a.mp3"
    ⟨3000, [[1], [2]]⟩ rfl rfl rfl rfl rfl rfl rfl

/-- Claim C7 (counterexample): when the prober binary is present but fails
(non-zero exit), `ffmpy.FFRuntimeError` is not caught — the `except` clause
covers only `FFExecutableNotFoundError` — so the episode pipeline aborts
with an error and never reaches tagging, refuting "finalization never fails
the episode pipeline" and "Finalizing always transitions to Tagging". -/
theorem C7_counterexample :
    (download_episode cfgBase wProbeFails).2 = Except.error PyErr.ffRuntimeError ∧
    Event.tagWrite ∉ (download_episode cfgBase wProbeFails).1 :=
  ⟨rfl, by decide⟩

/-- Claim C7 (amended): when the prober BINARY IS MISSING, finalization
degrades gracefully — the temporary file is renamed to `.mp3`, the warning
is emitted, and the pipeline proceeds to tagging and completes; but a
prober that runs and fails propagates `FFRuntimeError` out of the pipeline
before tagging. -/
theorem C7_graceful_when_missing (cfg : Config) (w : World) (evs : List Event)
    (hprobe : w.probe = ProbeResult.binaryMissing) :
    finalizeStep cfg.extMap w.probe = Except.ok ("mp3", true) ∧
    finalizeAndTag cfg w evs =
      (evs ++ [Event.probeRun, Event.tagWrite],
       Except.ok (Outcome.completed w.tagOk)) ∧
    finalizeStep cfg.extMap ProbeResult.runtimeError =
      Except.error PyErr.ffRuntimeError := by
  refine ⟨?_, ?_, rfl⟩
  · rw [hprobe]
    rfl
  · simp only [finalizeAndTag, hprobe, finalizeStep]

/-- Witness for C7: the amended theorem at a concrete world whose prober
binary is absent. -/
theorem C7_graceful_when_missing_witness :
    finalizeAndTag cfgBase wExisting [Event.metadataRequest] =
      ([Event.metadataRequest, Event.probeRun, Event.tagWrite],
       Except.ok (Outcome.completed true)) :=
  (C7_graceful_when_missing cfgBase wExisting [Event.metadataRequest] rfl).2.1
